import Mathlib

/-!
Verification development for the address-normalization and multi-provider
geocoding resolver of `mapa.py` (functions `normalize_for_geocode`,
`build_candidates`, `point_in_bbox`, `is_boundary_or_place_city`,
`is_valid_nominatim`, `is_valid_arcgis`, `geocode_with_providers`,
`geocode_addresses`, `save_geocache`, and the surrounding `main` driver).

The embedding works over `List Char` for the string-rewriting steps (each
Python `re.sub`/`re.search` of the source is modelled by a dedicated scanner
that reproduces the leftmost, non-overlapping match semantics of the concrete
pattern used there), over `String` for the data rows, and over `ℚ` for
coordinates (the source uses Python floats; exact rationals stand in for
them, a standard shallow-embedding choice — none of the properties below
depends on float rounding).  Provider calls are modelled by oracles
`Candidate → POut` / `String → POut`, where `POut.raises` models a provider
call raising an exception, `POut.nohit` a call returning `None`, and
`POut.hit loc` a call returning a location object.
-/

set_option maxRecDepth 20000

/-- Characters matched by Python's `\s` on the ASCII range. -/
def isWsC (c : Char) : Bool :=
  c = ' ' || c = '\t' || c = '\n' || c = '\r' || c = '\x0b' || c = '\x0c'

/-- Accented Latin letters occurring in the source's word lists.  Python's
Unicode-aware `\b` and `str.upper` treat them as (case-mapped) word
characters; we enumerate the ones relevant to the source data. -/
def accentedChars : List Char :=
  ['Ç', 'Ã', 'Á', 'À', 'Â', 'É', 'Ê', 'Í', 'Ó', 'Ô', 'Õ', 'Ú', 'Ü',
   'ç', 'ã', 'á', 'à', 'â', 'é', 'ê', 'í', 'ó', 'ô', 'õ', 'ú', 'ü']

/-- Word character for Python's `\b` (alphanumeric, underscore, accents). -/
def isWordC (c : Char) : Bool :=
  c.isAlphanum || c = '_' || accentedChars.contains c

/-- Python `str.upper` on the characters this data set contains. -/
def upChar (c : Char) : Char :=
  if 'a' ≤ c && c ≤ 'z' then Char.ofNat (c.toNat - 32)
  else if c = 'ç' then 'Ç' else if c = 'ã' then 'Ã'
  else if c = 'á' then 'Á' else if c = 'à' then 'À'
  else if c = 'â' then 'Â' else if c = 'é' then 'É'
  else if c = 'ê' then 'Ê' else if c = 'í' then 'Í'
  else if c = 'ó' then 'Ó' else if c = 'ô' then 'Ô'
  else if c = 'õ' then 'Õ' else if c = 'ú' then 'Ú'
  else if c = 'ü' then 'Ü' else c

/-- Python `str.lower` on the characters this data set contains. -/
def downChar (c : Char) : Char :=
  if 'A' ≤ c && c ≤ 'Z' then Char.ofNat (c.toNat + 32)
  else if c = 'Ç' then 'ç' else if c = 'Ã' then 'ã'
  else if c = 'Á' then 'á' else if c = 'À' then 'à'
  else if c = 'Â' then 'â' else if c = 'É' then 'é'
  else if c = 'Ê' then 'ê' else if c = 'Í' then 'í'
  else if c = 'Ó' then 'ó' else if c = 'Ô' then 'ô'
  else if c = 'Õ' then 'õ' else if c = 'Ú' then 'ú'
  else if c = 'Ü' then 'ü' else c

def pyUpperL (l : List Char) : List Char := l.map upChar

def pyLowerL (l : List Char) : List Char := l.map downChar

def pyUpperS (s : String) : String := String.mk (pyUpperL s.toList)

def pyLowerS (s : String) : String := String.mk (pyLowerL s.toList)

/-- Does `l` start with `p`? -/
def startsWithCL : List Char → List Char → Bool
  | [], _ => true
  | _ :: _, [] => false
  | p :: ps, c :: cs => p = c && startsWithCL ps cs

/-- Python's substring test `p in l` (empty needle matches). -/
def isSubstrCL (p : List Char) : List Char → Bool
  | [] => startsWithCL p []
  | c :: rest => startsWithCL p (c :: rest) || isSubstrCL p rest

def endsWithCL (p l : List Char) : Bool := startsWithCL p.reverse l.reverse

def isSubstrS (p h : String) : Bool := isSubstrCL p.toList h.toList

def endsWithS (h p : String) : Bool := endsWithCL p.toList h.toList

/-- Python `str.strip()` (whitespace at both ends). -/
def pyStripL (l : List Char) : List Char :=
  ((l.dropWhile isWsC).reverse.dropWhile isWsC).reverse

def pyStripS (s : String) : String := String.mk (pyStripL s.toList)

/-- Python `str.strip(chs)` for an explicit character set. -/
def stripSetL (chs l : List Char) : List Char :=
  ((l.dropWhile (fun c => chs.contains c)).reverse.dropWhile
    (fun c => chs.contains c)).reverse

/-- Python `str.isdigit()`: non-empty and all decimal digits. -/
def allDigits (l : List Char) : Bool := !l.isEmpty && l.all Char.isDigit

/-- Skip past the first `)` if one exists (the extent of one `\([^)]*\)`
match starting at an opening parenthesis). -/
def findClose : List Char → Option (List Char)
  | [] => none
  | c :: rest => if c = ')' then some rest else findClose rest

/-- `re.sub(r"\([^)]*\)", "", t)` — drop parenthesised asides
(mapa.py `_strip_parentheses`). -/
def stripParensF : Nat → List Char → List Char
  | 0, l => l
  | _ + 1, [] => []
  | fuel + 1, c :: rest =>
    if c = '(' then
      match findClose rest with
      | some rest2 => stripParensF fuel rest2
      | none => c :: stripParensF fuel rest
    else c :: stripParensF fuel rest

def stripParens (l : List Char) : List Char := stripParensF (l.length + 1) l

/-- Is the last character of `p` a word character (boundary context carried
past a replacement)? -/
def lastIsWord : List Char → Bool
  | [] => false
  | l => match l.reverse with
         | [] => false
         | c :: _ => isWordC c

/-- One pass of `re.sub(rf'\b{p}(?=[A-Z0-9])', f'{p} ', t)` for a single
street-type word `p` (mapa.py line 167).  The boolean argument tracks
whether the previous character of the original string is a word character,
which decides the `\b`. -/
def subTypeWordF (p : List Char) : Nat → Bool → List Char → List Char
  | 0, _, l => l
  | _ + 1, _, [] => []
  | fuel + 1, prevW, c :: rest =>
    if !prevW && startsWithCL p (c :: rest) &&
        (match (c :: rest).drop p.length with
         | d :: _ => ('A' ≤ d && d ≤ 'Z') || d.isDigit
         | [] => false) then
      p ++ ' ' :: subTypeWordF p fuel (lastIsWord p) ((c :: rest).drop p.length)
    else
      c :: subTypeWordF p fuel (isWordC c) rest

def subTypeWord (p l : List Char) : List Char := subTypeWordF p (l.length + 1) false l

/-- Tail of one `\bKM\s*([0-9]+[,\.]?[0-9]*)` match after the literal `KM`:
returns (captured group, remainder). -/
def kmTail (l : List Char) : Option (List Char × List Char) :=
  let (_, r1) := l.span isWsC
  let (ds, r2) := r1.span Char.isDigit
  if ds.isEmpty then none
  else
    match r2 with
    | c :: r3 =>
      if c = ',' || c = '.' then
        let (ds2, r4) := r3.span Char.isDigit
        some (ds ++ c :: ds2, r4)
      else some (ds, r2)
    | [] => some (ds, [])

/-- `re.sub(r'\bKM\s*([0-9]+[,\.]?[0-9]*)', r'KM \1', t)` (mapa.py line 170). -/
def subKMF : Nat → Bool → List Char → List Char
  | 0, _, l => l
  | _ + 1, _, [] => []
  | fuel + 1, prevW, c :: rest =>
    if !prevW && startsWithCL ['K', 'M'] (c :: rest) then
      match kmTail ((c :: rest).drop 2) with
      | some (g, r) => 'K' :: 'M' :: ' ' :: (g ++ subKMF fuel (lastIsWord g) r)
      | none => c :: subKMF fuel (isWordC c) rest
    else c :: subKMF fuel (isWordC c) rest

def subKM (l : List Char) : List Char := subKMF (l.length + 1) false l

/-- `re.sub(r'(\d),(\d)', r'\1.\2', t)` — decimal comma to dot
(mapa.py line 172). -/
def subDecComma : List Char → List Char
  | [] => []
  | [a] => [a]
  | [a, b] => [a, b]
  | a :: b :: c :: rest =>
    if a.isDigit && b = ',' && c.isDigit then a :: '.' :: c :: subDecComma rest
    else a :: subDecComma (b :: c :: rest)

def takeDigits2 : List Char → Option (List Char)
  | a :: b :: r => if a.isDigit && b.isDigit then some r else none
  | _ => none

def takeUpper2 : List Char → Option (List Char)
  | a :: b :: r =>
    if ('A' ≤ a && a ≤ 'Z') && ('A' ≤ b && b ≤ 'Z') then some r else none
  | _ => none

/-- One attempted match of `\s*-\s*\d{2}\s*/\s*[A-Z]{2}\s*-?` at the head of
`l`; on success returns the remainder after the match. -/
def ufFragTail (l : List Char) : Option (List Char) :=
  let (_, r1) := l.span isWsC
  match r1 with
  | '-' :: r2 =>
    let (_, r3) := r2.span isWsC
    match takeDigits2 r3 with
    | some r4 =>
      let (_, r5) := r4.span isWsC
      match r5 with
      | '/' :: r6 =>
        let (_, r7) := r6.span isWsC
        match takeUpper2 r7 with
        | some r8 =>
          let (_, r9) := r8.span isWsC
          match r9 with
          | '-' :: r10 => some r10
          | _ => some r9
        | none => none
      | _ => none
    | none => none
  | _ => none

/-- `re.sub(r'\s*-\s*\d{2}\s*/\s*[A-Z]{2}\s*-?', ' ', t)` (mapa.py line 175). -/
def subUFFragF : Nat → List Char → List Char
  | 0, l => l
  | _ + 1, [] => []
  | fuel + 1, c :: rest =>
    match ufFragTail (c :: rest) with
    | some r => ' ' :: subUFFragF fuel r
    | none => c :: subUFFragF fuel rest

def subUFFrag (l : List Char) : List Char := subUFFragF (l.length + 1) l

/-- Exactly `n` decimal digits from the front. -/
def takeNDigits : Nat → List Char → Option (List Char × List Char)
  | 0, l => some ([], l)
  | n + 1, c :: r =>
    if c.isDigit then
      match takeNDigits n r with
      | some (ds, r2) => some (c :: ds, r2)
      | none => none
    else none
  | _ + 1, [] => none

/-- Tail of one `CEP\s*([0-9]{5}-?[0-9]{3})` match after the literal `CEP`:
returns (captured group, remainder). -/
def cepTail (l : List Char) : Option (List Char × List Char) :=
  let (_, r1) := l.span isWsC
  match takeNDigits 5 r1 with
  | some (d5, r2) =>
    match r2 with
    | '-' :: r3 =>
      (match takeNDigits 3 r3 with
       | some (d3, r4) => some (d5 ++ '-' :: d3, r4)
       | none => none)
    | _ =>
      (match takeNDigits 3 r2 with
       | some (d3, r4) => some (d5 ++ d3, r4)
       | none => none)
  | none => none

/-- `re.search(r'CEP\s*([0-9]{5}-?[0-9]{3})', t)` (mapa.py line 178): leftmost
match, returned as (text before match, captured group, text after match). -/
def cepSearchAux : List Char → List Char → Option (List Char × List Char × List Char)
  | _, [] => none
  | acc, c :: rest =>
    if startsWithCL ['C', 'E', 'P'] (c :: rest) then
      match cepTail ((c :: rest).drop 3) with
      | some (g, r) => some (acc.reverse, g, r)
      | none => cepSearchAux (c :: acc) rest
    else cepSearchAux (c :: acc) rest

def cepSearch (l : List Char) : Option (List Char × List Char × List Char) :=
  cepSearchAux [] l

/-- Is the boundary `\b` satisfied right before `r` (previous char a word
character)? -/
def boundaryAfterCL (r : List Char) : Bool :=
  match r with
  | [] => true
  | c :: _ => !isWordC c

/-- Does `\s-\s{w}\b` match at the head of the list? -/
def compMatchAt (w : List Char) : List Char → Bool
  | a :: b :: c :: rest =>
    isWsC a && b = '-' && isWsC c && startsWithCL w rest &&
      boundaryAfterCL (rest.drop w.length)
  | _ => false

/-- `re.sub(rf'\s-\s{w}\b.*$', '', t)` for one complement word `w`
(mapa.py line 186): truncate at the leftmost match. -/
def subComp (w : List Char) : List Char → List Char
  | [] => []
  | c :: rest => if compMatchAt w (c :: rest) then [] else c :: subComp w rest

/-- `t.replace(' - ', ', ')` (mapa.py line 189). -/
def dashToComma : List Char → List Char
  | [] => []
  | [a] => [a]
  | [a, b] => [a, b]
  | a :: b :: c :: rest =>
    if a = ' ' && b = '-' && c = ' ' then ',' :: ' ' :: dashToComma rest
    else a :: dashToComma (b :: c :: rest)

/-- `re.sub(r'\s*,\s*', ', ', t)` (mapa.py line 190). -/
def commaSpaceF : Nat → List Char → List Char
  | 0, l => l
  | _ + 1, [] => []
  | fuel + 1, c :: rest =>
    let (_, r1) := (c :: rest).span isWsC
    match r1 with
    | ',' :: r2 =>
      let (_, r3) := r2.span isWsC
      ',' :: ' ' :: commaSpaceF fuel r3
    | _ => c :: commaSpaceF fuel rest

def commaSpace (l : List Char) : List Char := commaSpaceF (l.length + 1) l

/-- `re.sub(r'\s{2,}', ' ', t)` (mapa.py line 191). -/
def collapseWsF : Nat → List Char → List Char
  | 0, l => l
  | _ + 1, [] => []
  | fuel + 1, c :: rest =>
    if isWsC c then
      match rest.span isWsC with
      | ([], _) => c :: collapseWsF fuel rest
      | (_ :: _, r) => ' ' :: collapseWsF fuel r
    else c :: collapseWsF fuel rest

def collapseWs (l : List Char) : List Char := collapseWsF (l.length + 1) l

/-- `t.split` by commas (used to model the anchored three-group match
`^(street)(?:,\s*(number))?(?:,\s*(bairro))?$` of mapa.py line 194). -/
def splitCommaAux : List Char → List Char → List (List Char)
  | acc, [] => [acc.reverse]
  | acc, c :: rest =>
    if c = ',' then acc.reverse :: splitCommaAux [] rest
    else splitCommaAux (c :: acc) rest

def splitComma (l : List Char) : List (List Char) := splitCommaAux [] l

/-- The anchored match of mapa.py line 194.  `street` is a lazy `[^,]+?`, so
it is exactly the text before the first comma; the optional groups each
require a non-empty comma-separated segment; with more than three segments
(or an empty one) the whole match fails and the code falls back to
`street, number, bairro = t, '', ''`. -/
def threeGroup (t : List Char) : List Char × List Char × List Char :=
  match splitComma t with
  | [s0] => if s0.isEmpty then (t, [], []) else (s0, [], [])
  | [s0, s1] => if s0.isEmpty || s1.isEmpty then (t, [], []) else (s0, s1, [])
  | [s0, s1, s2] =>
    if s0.isEmpty || s1.isEmpty || s2.isEmpty then (t, [], []) else (s0, s1, s2)
  | _ => (t, [], [])

/-- `re.search(r'\bKM\s*\d', t)` (mapa.py line 203). -/
def hasKMAux : Bool → List Char → Bool
  | _, [] => false
  | prevW, c :: rest =>
    (!prevW && startsWithCL ['K', 'M'] (c :: rest) &&
      (match (((c :: rest).drop 2).span isWsC).2 with
       | d :: _ => d.isDigit
       | [] => false))
    || hasKMAux (isWordC c) rest

def hasKM (l : List Char) : Bool := hasKMAux false l

def toL (s : String) : List Char := s.toList

/-- The `_PREFIXES` street-type word list of mapa.py (in source order; the
per-word substitutions are applied sequentially in this order). -/
def streetTypeWords : List (List Char) :=
  [toL "RUA", toL "AVENIDA", toL "AV", toL "ALAMEDA", toL "TRAVESSA",
   toL "ESTRADA", toL "RODOVIA", toL "ROD", toL "PRAÇA", toL "PRACA",
   toL "LARGO", toL "VIA", toL "VIELA", toL "SERVIDAO", toL "SERVIDÃO",
   toL "PARQUE"]

/-- The `_COMPLEMENTS` word list of mapa.py (in source order). -/
def complementWords : List (List Char) :=
  [toL "SALA", toL "SL", toL "TERREO", toL "TÉRREO", toL "FUNDOS", toL "LOJA",
   toL "APTO", toL "APT", toL "AP", toL "CJ", toL "CONJ", toL "SOBRADO",
   toL "GALPAO", toL "GALPÃO", toL "BOX", toL "BLOCO", toL "BL", toL "ANDAR"]

/-- Metadata dictionary returned by `normalize_for_geocode`. -/
structure NormMeta where
  street : String
  number : String
  neighbourhood : String
  has_km : Bool
  expects_house : Bool
deriving DecidableEq

/-- mapa.py `normalize_for_geocode` (lines 151-222): returns
(base text, optional CEP, metadata). -/
def normalize_for_geocode (endereco_raw : String) : String × Option String × NormMeta :=
  if endereco_raw = "" then ("", none, ⟨"", "", "", false, false⟩)
  else
    let t0 := pyStripL (pyUpperL endereco_raw.toList)
    let t1 := stripParens t0
    let t2 := streetTypeWords.foldl (fun acc p => subTypeWord p acc) t1
    let t3 := subKM t2
    let t4 := subDecComma t3
    let t5 := subUFFrag t4
    let cepRes := cepSearch t5
    let t6 := match cepRes with
      | some (before, _, after) => pyStripL (before ++ after)
      | none => t5
    let cep : Option String := match cepRes with
      | some (_, g, _) => some (String.mk g)
      | none => none
    let t7 := complementWords.foldl (fun acc w => subComp w acc) t6
    let t8 := dashToComma t7
    let t9 := commaSpace t8
    let t10 := stripSetL [' ', ',', ';', '-'] (collapseWs t9)
    let grp := threeGroup t10
    let street := grp.1
    let number := pyStripL grp.2.1
    let bairro := pyStripL grp.2.2
    let hk := hasKM t10
    let eh := !number.isEmpty &&
      (allDigits number || isSubstrCL (toL "S/N") number || isSubstrCL (toL "S\\N") number)
    let streetS := pyStripL street
    let baseParts :=
      (if streetS.isEmpty then [] else [streetS]) ++
      (if number.isEmpty then [] else [number]) ++
      (if bairro.isEmpty then [] else [bairro])
    let base := String.intercalate ", " (baseParts.map String.mk)
    (base, cep, ⟨String.mk streetS, String.mk number, String.mk bairro, hk, eh⟩)

/-- One geocoding query candidate.  The source represents the structured
candidates as Python dicts with key sets {street,city,state,country},
optionally +postalcode, or {postalcode,city,state,country}, and the fallback
as a plain string; candidate identity (used for order-preserving
de-duplication via `json.dumps` keys) coincides with structural equality of
this type. -/
inductive Candidate where
  | streetPC (street city state country postalcode : String)
  | streetQ (street city state country : String)
  | postalQ (postalcode city state country : String)
  | freeText (q : String)
deriving DecidableEq

/-- Order-preserving de-duplication, first occurrence wins (the `seen` set
loop of mapa.py lines 330-334, and pandas `drop_duplicates` keep='first'). -/
def dedupAux {α : Type} [DecidableEq α] (seen : List α) : List α → List α
  | [] => []
  | a :: rest =>
    if a ∈ seen then dedupAux seen rest else a :: dedupAux (a :: seen) rest

def dedupKeepFirst {α : Type} [DecidableEq α] (l : List α) : List α := dedupAux [] l

/-- The candidate list of mapa.py `build_candidates` (lines 311-327) before
de-duplication, built from the normalizer's output. -/
def candList (base : String) (cep : Option String) (meta : NormMeta)
    (cidade uf country : String) : List Candidate :=
  (if base ≠ "" then
     match cep with
     | some pc => [Candidate.streetPC base cidade uf country pc]
     | none => []
   else []) ++
  (if base ≠ "" then [Candidate.streetQ base cidade uf country] else []) ++
  (if meta.street ≠ "" then
     [Candidate.streetQ
       (meta.street ++ (if meta.number ≠ "" then ", " ++ meta.number else ""))
       cidade uf country]
   else []) ++
  (match cep with
   | some pc => [Candidate.postalQ pc cidade uf country]
   | none => []) ++
  (if base ≠ "" then
     [Candidate.freeText (base ++ ", " ++ cidade ++ ", " ++ uf ++ ", " ++ country)]
   else [])

/-- mapa.py `build_candidates` (lines 309-335). -/
def build_candidates (endereco_raw cidade uf country : String) :
    List Candidate × NormMeta :=
  let n := normalize_for_geocode endereco_raw
  (dedupKeepFirst (candList n.1 n.2.1 n.2.2 cidade uf country), n.2.2)

def digitsToNat (l : List Char) : Nat :=
  l.foldl (fun acc c => acc * 10 + (c.toNat - 48)) 0

/-- Optional exponent part `[eE][+-]?digits` of a float literal; `none` when
no well-formed exponent starts here. -/
def expTail (l : List Char) : Option (Bool × Nat × List Char) :=
  match l with
  | c :: r =>
    if c = 'e' || c = 'E' then
      match r with
      | '+' :: r2 =>
        let (ds, r3) := r2.span Char.isDigit
        if ds.isEmpty then none else some (false, digitsToNat ds, r3)
      | '-' :: r2 =>
        let (ds, r3) := r2.span Char.isDigit
        if ds.isEmpty then none else some (true, digitsToNat ds, r3)
      | _ =>
        let (ds, r3) := r.span Char.isDigit
        if ds.isEmpty then none else some (false, digitsToNat ds, r3)
    else none
  | [] => none

/-- Assemble `±(m / 10^k) · 10^(±emag)` as an exact rational.  Built from
`mkRat` and integer arithmetic only, which (unlike the `@[irreducible]`
rational field operations) the kernel can evaluate. -/
def ratOfParts (neg : Bool) (m k : Nat) (eneg : Bool) (emag : Nat) : ℚ :=
  let sgn : Int := if neg then -1 else 1
  if eneg then mkRat (sgn * (m : Int)) (10 ^ (k + emag))
  else if k ≤ emag then mkRat (sgn * (m : Int) * (10 : Int) ^ (emag - k)) 1
  else mkRat (sgn * (m : Int)) (10 ^ (k - emag))

/-- Python `float(s)` on finite decimal literals, as an exact rational
(`none` models the `ValueError` caught by the source's `try/except`; the
special literals inf/nan and underscore separators, which never occur in
this pipeline's data, are not modelled). -/
def parseDecimal (s : String) : Option ℚ :=
  let cs := pyStripL s.toList
  let sgnCs : Bool × List Char :=
    match cs with
    | '+' :: r => (false, r)
    | '-' :: r => (true, r)
    | r => (false, r)
  let neg := sgnCs.1
  let (ip, r1) := sgnCs.2.span Char.isDigit
  let fpR : Option (List Char) × List Char :=
    match r1 with
    | '.' :: r => let (d, r2) := r.span Char.isDigit; (some d, r2)
    | r => (none, r)
  let fp := fpR.1
  let r2 := fpR.2
  if ip.isEmpty && (fp.getD []).isEmpty then none
  else
    let m := digitsToNat (ip ++ fp.getD [])
    let k := (fp.getD []).length
    match expTail r2 with
    | some (eneg, emag, r3) =>
      if r3.isEmpty then some (ratOfParts neg m k eneg emag) else none
    | none => if r2.isEmpty then some (ratOfParts neg m k false 0) else none

/-- Bounding box `(west, south, east, north)` as produced by
`fetch_city_bbox`. -/
abbrev BBox := ℚ × ℚ × ℚ × ℚ

/-- mapa.py `point_in_bbox` (lines 241-245); `none` models the falsy `bbox`. -/
def point_in_bbox (lat lon : ℚ) (bbox : Option BBox) : Bool :=
  match bbox with
  | none => true
  | some (west, south, east, north) =>
    decide (south ≤ lat) && decide (lat ≤ north) &&
    decide (west ≤ lon) && decide (lon ≤ east)

/-- The `raw["address"]` sub-dictionary of a provider response; `""` models a
missing key (the source reads every field with `.get(...) or ""`). -/
structure AddrDetails where
  country_code : String
  city : String
  town : String
  municipality : String
  village : String
  state : String
  state_code : String
  house_number : String
deriving DecidableEq

/-- A provider response object, covering the fields the source consults: the
raw OSM `class`/`type`, the structured address details, the coordinates as
the decimal strings geopy would format (`f"{loc.latitude}"`), and the
flat formatted address used by the ArcGIS validator. -/
structure Loc where
  cls : String
  ty : String
  address : AddrDetails
  latStr : String
  lonStr : String
  addressText : String
deriving DecidableEq

/-- mapa.py `_addr_city_like` (lines 247-248): first non-empty of
city/town/municipality/village. -/
def addr_city_like (addr : AddrDetails) : String :=
  if addr.city ≠ "" then addr.city
  else if addr.town ≠ "" then addr.town
  else if addr.municipality ≠ "" then addr.municipality
  else if addr.village ≠ "" then addr.village
  else ""

/-- mapa.py `is_boundary_or_place_city` (lines 250-257). -/
def is_boundary_or_place_city (loc : Loc) : Bool :=
  (loc.cls = "boundary" &&
    (["administrative", "city", "town", "municipality"].contains loc.ty)) ||
  (loc.cls = "place" &&
    (["city", "town", "village", "hamlet", "municipality"].contains loc.ty))

/-- mapa.py `is_valid_nominatim` (lines 259-291). -/
def is_valid_nominatim (loc : Loc) (city_expect uf_expect : String)
    (bbox : Option BBox) (expects_house : Bool) : Bool :=
  if is_boundary_or_place_city loc then false
  else if pyLowerS loc.address.country_code ≠ "br" then false
  else
    let city_hit := addr_city_like loc.address
    let state_code := pyUpperS loc.address.state_code
    let state := pyUpperS loc.address.state
    let ok_city := isSubstrS (pyUpperS city_expect) (pyUpperS city_hit)
    let ok_uf := (pyUpperS uf_expect == state_code) ||
      isSubstrS (pyUpperS uf_expect) state
    if !(ok_city && ok_uf) then false
    else
      match parseDecimal loc.latStr, parseDecimal loc.lonStr with
      | some lat, some lon =>
        if !point_in_bbox lat lon bbox then false
        else if expects_house then
          let house_num := pyStripS loc.address.house_number
          let tyl := pyLowerS loc.ty
          if house_num = "" && !(["house", "building", "residential"].contains tyl)
          then false else true
        else true
      | _, _ => false

/-- mapa.py `is_valid_arcgis` (lines 293-307); the `expects_house` flag is
accepted but never consulted, matching the source's documented relaxation. -/
def is_valid_arcgis (loc : Loc) (city_expect uf_expect : String)
    (bbox : Option BBox) (_expects_house : Bool) : Bool :=
  let addr_text := pyUpperS loc.addressText
  match parseDecimal loc.latStr, parseDecimal loc.lonStr with
  | some lat, some lon =>
    if !point_in_bbox lat lon bbox then false
    else
      let ok_city := isSubstrS (pyUpperS city_expect) addr_text
      let ok_uf := isSubstrS (", " ++ pyUpperS uf_expect ++ " ") addr_text ||
        endsWithS addr_text (", " ++ pyUpperS uf_expect)
      if !(ok_city && ok_uf) then false else true
  | _, _ => false

/-- Outcome of one outbound provider call: an exception, no result (`None`),
or a location object. -/
inductive POut where
  | raises
  | nohit
  | hit (loc : Loc)

/-- The string handed to ArcGIS for a candidate: mapa.py line 360 serialises
a dict candidate as `", ".join(str(v) for v in q.values())` (insertion
order), and passes a string candidate unchanged. -/
def candToArcStr : Candidate → String
  | Candidate.streetPC street city state country postalcode =>
    street ++ ", " ++ city ++ ", " ++ state ++ ", " ++ country ++ ", " ++ postalcode
  | Candidate.streetQ street city state country =>
    street ++ ", " ++ city ++ ", " ++ state ++ ", " ++ country
  | Candidate.postalQ postalcode city state country =>
    postalcode ++ ", " ++ city ++ ", " ++ state ++ ", " ++ country
  | Candidate.freeText q => q

/-- The Nominatim loop of `geocode_with_providers` (mapa.py lines 346-354):
first candidate whose call returns a location passing the validator wins;
exceptions and invalid or empty responses just move on.  Also counts the
provider calls made. -/
def tryProviderNom (nomF : Candidate → POut) (cidade uf : String)
    (bbox : Option BBox) (expects_house : Bool) :
    List Candidate → Option Loc × Nat
  | [] => (none, 0)
  | q :: rest =>
    match nomF q with
    | POut.hit loc =>
      if is_valid_nominatim loc cidade uf bbox expects_house then (some loc, 1)
      else
        let p := tryProviderNom nomF cidade uf bbox expects_house rest
        (p.1, p.2 + 1)
    | _ =>
      let p := tryProviderNom nomF cidade uf bbox expects_house rest
      (p.1, p.2 + 1)

/-- The ArcGIS loop of `geocode_with_providers` (mapa.py lines 357-365). -/
def tryProviderArc (arcF : String → POut) (cidade uf : String)
    (bbox : Option BBox) (expects_house : Bool) :
    List Candidate → Option Loc × Nat
  | [] => (none, 0)
  | q :: rest =>
    match arcF (candToArcStr q) with
    | POut.hit loc =>
      if is_valid_arcgis loc cidade uf bbox expects_house then (some loc, 1)
      else
        let p := tryProviderArc arcF cidade uf bbox expects_house rest
        (p.1, p.2 + 1)
    | _ =>
      let p := tryProviderArc arcF cidade uf bbox expects_house rest
      (p.1, p.2 + 1)

/-- Result of `geocode_with_providers`: the returned 4-tuple
`(lat, lon, provider, reason)` plus the number of outbound provider calls
made while producing it (the per-candidate geocoding calls; the once-per-run
bounding-box fetch is not counted). -/
structure GwpOut where
  latitude : String
  longitude : String
  provider : String
  reason : String
  calls : Nat
deriving DecidableEq

/-- mapa.py `geocode_with_providers` (lines 337-367). -/
def geocode_with_providers (nomF : Candidate → POut) (arcF : String → POut)
    (candidates : List Candidate) (bbox : Option BBox) (cidade uf : String)
    (expects_house : Bool) : GwpOut :=
  match tryProviderNom nomF cidade uf bbox expects_house candidates with
  | (some loc, n) => ⟨loc.latStr, loc.lonStr, "nominatim", "", n⟩
  | (none, n) =>
    match tryProviderArc arcF cidade uf bbox expects_house candidates with
    | (some loc, m) => ⟨loc.latStr, loc.lonStr, "arcgis", "", n + m⟩
    | (none, m) => ⟨"", "", "", "no_valid_hit", n + m⟩

/-- One row of the geocache table (`query, latitude, longitude`, all stored
as strings; empty strings model both empty cells and `NaN`-free reads, since
the source loads with `keep_default_na=False`). -/
structure CacheRow where
  query : String
  latitude : String
  longitude : String
deriving DecidableEq

/-- Building a Python dict from row pairs (mapa.py line 393 / 457):
first-insertion order, last value per key wins. -/
def dictUpsert (m : List CacheRow) (r : CacheRow) : List CacheRow :=
  if m.any (fun x => x.query == r.query) then
    m.map (fun x => if x.query == r.query then ⟨x.query, r.latitude, r.longitude⟩ else x)
  else m ++ [r]

def dictLast (rows : List CacheRow) : List CacheRow := rows.foldl dictUpsert []

/-- Dict lookup / `cache_map.get`. -/
def lookupQ (m : List CacheRow) (q : String) : Option (String × String) :=
  match m.find? (fun r => r.query == q) with
  | some r => some (r.latitude, r.longitude)
  | none => none

/-- pandas `drop_duplicates("query")` (keep first) on cache rows, as used by
`load_or_init_geocache` and `save_geocache`. -/
def dedupByQueryAux (seen : List String) : List CacheRow → List CacheRow
  | [] => []
  | r :: rest =>
    if r.query ∈ seen then dedupByQueryAux seen rest
    else r :: dedupByQueryAux (r.query :: seen) rest

def dedupByQuery (rows : List CacheRow) : List CacheRow := dedupByQueryAux [] rows

/-- mapa.py `load_or_init_geocache` (lines 125-132): a missing file yields an
empty cache, an existing one is de-duplicated keeping the first row per
query (missing columns are re-added as empty strings upstream of this
model). -/
def load_or_init_geocache (fileRows : Option (List CacheRow)) : List CacheRow :=
  match fileRows with
  | some rows => dedupByQuery rows
  | none => []

/-- The precision-expectation probe of the centroid-suspect pre-pass:
`re.search(r',\s*\d|S/?N\b|KM\s*\d', q.upper())` (mapa.py line 402). -/
def snBranch : List Char → Bool
  | 'S' :: '/' :: 'N' :: r => boundaryAfterCL r
  | 'S' :: 'N' :: r => boundaryAfterCL r
  | _ => false

def kmBranch : List Char → Bool
  | 'K' :: 'M' :: r =>
    (match (r.span isWsC).2 with
     | d :: _ => d.isDigit
     | [] => false)
  | _ => false

def commaDigitBranch : List Char → Bool
  | ',' :: r =>
    (match (r.span isWsC).2 with
     | d :: _ => d.isDigit
     | [] => false)
  | _ => false

def expectsHousePatAux : List Char → Bool
  | [] => false
  | c :: rest =>
    commaDigitBranch (c :: rest) || snBranch (c :: rest) || kmBranch (c :: rest) ||
      expectsHousePatAux rest

def expectsHousePat (q : String) : Bool := expectsHousePatAux (pyUpperL q.toList)

/-- Exact rational difference `a - b`, written with `mkRat` over the
cross-multiplied numerator so that the kernel can evaluate it. -/
def ratSub (a b : ℚ) : ℚ := mkRat (a.num * b.den - b.num * a.den) (a.den * b.den)

/-- Exact rational absolute value, kernel-evaluable. -/
def ratAbs (a : ℚ) : ℚ := if a < 0 then mkRat (-a.num) a.den else a

/-- Should a cache entry survive the centroid-suspect pre-pass of
`geocode_addresses` (mapa.py lines 395-409)?  Entries whose coordinates do
not parse as floats are dropped by the `try/except ... continue`; entries
with a precision expectation that sit within ~0.009° of the city centroid
are dropped as suspect. -/
def keepCacheRow (centroid : Option (ℚ × ℚ)) (r : CacheRow) : Bool :=
  match parseDecimal r.latitude, parseDecimal r.longitude with
  | some latf, some lonf =>
    match centroid with
    | some (clat, clon) =>
      !(expectsHousePat r.query &&
        decide (ratAbs (ratSub latf clat) < mkRat 9 1000) &&
        decide (ratAbs (ratSub lonf clon) < mkRat 9 1000))
    | none => true
  | _, _ => false

def cleanedCache (m : List CacheRow) (centroid : Option (ℚ × ℚ)) : List CacheRow :=
  m.filter (keepCacheRow centroid)

/-- The pending set (mapa.py line 411): input queries not in the cleaned
cache, de-duplicated keeping first appearance. -/
def pendingOf (inputs : List String) (cleaned : List CacheRow) : List String :=
  dedupKeepFirst (inputs.filter (fun q => (lookupQ cleaned q).isNone))

/-- One row of the failure log (mapa.py lines 431-438). -/
structure FailRow where
  query : String
  norm_base : Option Candidate
  expects_house : Bool
  has_km : Bool
  candidates : List Candidate
  reason : String
deriving DecidableEq

/-- A durable file write performed by the pipeline: a cache-file write
(`to_csv` on the geocache path) or a failure-log write (`to_csv` on the
failure-log path). -/
inductive FileEvent where
  | cacheWrite (rows : List CacheRow)
  | failLogWrite (rows : List FailRow)
deriving DecidableEq

def isCacheWrite : FileEvent → Bool
  | FileEvent.cacheWrite _ => true
  | FileEvent.failLogWrite _ => false

def countCacheWrites (evs : List FileEvent) : Nat := evs.countP isCacheWrite

/-- In-memory state of the `for i, q in enumerate(pend, 1)` loop of
`geocode_addresses`. -/
structure LoopState where
  geocache : List CacheRow
  novos : List CacheRow
  failRows : List FailRow
  events : List FileEvent
  calls : Nat
  ok : Nat
  falhas : Nat
deriving DecidableEq

/-- The checkpoint block of `geocode_addresses`: merge `novos` into the
in-memory cache when non-empty, and rewrite the failure log when there are
failure rows.  This is the body of the `i % 50 == 0` branch (mapa.py lines
441-448) and also, verbatim, the end-of-loop flush (lines 450-453).  The
source performs no cache-file write in either place. -/
def checkpoint (st : LoopState) : LoopState :=
  let st2 :=
    if st.novos.isEmpty then st
    else { st with geocache := st.geocache ++ st.novos, novos := [] }
  if st2.failRows.isEmpty then st2
  else { st2 with events := st2.events ++ [FileEvent.failLogWrite st2.failRows] }

/-- The per-address body of the `for i, q in enumerate(pend, 1)` loop
(mapa.py lines 423-439): build candidates, resolve, and record either a new
cache row or a failure row (a failure also records an empty-coordinate cache
row). -/
def stepBody (nomF : Candidate → POut) (arcF : String → POut)
    (bbox : Option BBox) (cidade uf : String)
    (st : LoopState) (q : String) : LoopState :=
  let bc := build_candidates q cidade uf "Brasil"
  let cands := bc.1
  let meta := bc.2
  let r := geocode_with_providers nomF arcF cands bbox cidade uf meta.expects_house
  if r.latitude ≠ "" ∧ r.longitude ≠ "" then
    { st with ok := st.ok + 1, calls := st.calls + r.calls,
              novos := st.novos ++ [⟨q, r.latitude, r.longitude⟩] }
  else
    { st with falhas := st.falhas + 1, calls := st.calls + r.calls,
              failRows := st.failRows ++
                [⟨q, cands.head?, meta.expects_house, meta.has_km, cands, r.reason⟩],
              novos := st.novos ++ [⟨q, r.latitude, r.longitude⟩] }

/-- One loop iteration of mapa.py lines 422-448, including the periodic
checkpoint. -/
def stepAddr (nomF : Candidate → POut) (arcF : String → POut)
    (bbox : Option BBox) (cidade uf : String)
    (st : LoopState) (i : Nat) (q : String) : LoopState :=
  if i % 50 = 0 then checkpoint (stepBody nomF arcF bbox cidade uf st q)
  else stepBody nomF arcF bbox cidade uf st q

def runLoopAux (nomF : Candidate → POut) (arcF : String → POut)
    (bbox : Option BBox) (cidade uf : String) :
    Nat → List String → LoopState → LoopState
  | _, [], st => st
  | i, q :: rest, st =>
    runLoopAux nomF arcF bbox cidade uf (i + 1) rest
      (stepAddr nomF arcF bbox cidade uf st i q)

/-- Result of one `geocode_addresses` run. -/
structure RunResult where
  geocache : List CacheRow
  pend : List String
  failRows : List FailRow
  events : List FileEvent
  providerCalls : Nat
  ok : Nat
  falhas : Nat
  output : List (String × Option (String × String))
deriving DecidableEq

/-- mapa.py `geocode_addresses` (lines 369-459).  `inputs` is the `endereco`
column of the base table (each row's raw address, which the source copies
into the `query` column unchanged); `bbox`/`centroid` are the results of the
once-per-run `fetch_city_bbox` call; the oracles model the two rate-limited
provider callables. -/
def geocode_addresses (nomF : Candidate → POut) (arcF : String → POut)
    (inputs : List String) (geocache0 : List CacheRow)
    (bbox : Option BBox) (centroid : Option (ℚ × ℚ))
    (cidade uf : String) (maxGeocode : Option Nat) : RunResult :=
  let cacheMap := dictLast geocache0
  let cleaned := cleanedCache cacheMap centroid
  let pend0 := pendingOf inputs cleaned
  let pend := match maxGeocode with
    | some m => pend0.take m
    | none => pend0
  let st0 : LoopState := ⟨geocache0, [], [], [], 0, 0, 0⟩
  let st := runLoopAux nomF arcF bbox cidade uf 1 pend st0
  let st3 := checkpoint st
  let finalMap := dictLast st3.geocache
  { geocache := st3.geocache, pend := pend, failRows := st3.failRows,
    events := st3.events, providerCalls := st3.calls, ok := st3.ok,
    falhas := st3.falhas,
    output := inputs.map (fun q => (q, lookupQ finalMap q)) }

/-- mapa.py `save_geocache` (lines 134-135): one cache-file write of the
cache de-duplicated by query (pandas keeps the first row per key). -/
def save_geocache (rows : List CacheRow) : FileEvent :=
  FileEvent.cacheWrite (dedupByQuery rows)

/-- The file writes of a whole `main` run (mapa.py lines 497-505): the
events emitted inside `geocode_addresses` followed by the single
`save_geocache` call, paired with the run result. -/
def mainEvents (nomF : Candidate → POut) (arcF : String → POut)
    (inputs : List String) (geocache0 : List CacheRow)
    (bbox : Option BBox) (centroid : Option (ℚ × ℚ))
    (cidade uf : String) (maxGeocode : Option Nat) :
    List FileEvent × RunResult :=
  let r := geocode_addresses nomF arcF inputs geocache0 bbox centroid cidade uf maxGeocode
  (r.events ++ [save_geocache r.geocache], r)

/-! ### Supporting lemmas -/

theorem dedupAux_ne_nil {α : Type} [DecidableEq α] (a : α) (l : List α) :
    dedupAux [] (a :: l) ≠ [] := by
  simp [dedupAux]

theorem dedupKeepFirst_ne_nil {α : Type} [DecidableEq α] {l : List α}
    (h : l ≠ []) : dedupKeepFirst l ≠ [] := by
  cases l with
  | nil => exact absurd rfl h
  | cons a rest => exact dedupAux_ne_nil a rest

theorem mem_dedupAux {α : Type} [DecidableEq α] {a : α} :
    ∀ {l : List α} {seen : List α}, a ∈ l → a ∉ seen → a ∈ dedupAux seen l := by
  intro l
  induction l with
  | nil => intro seen h _; cases h
  | cons b rest ih =>
    intro seen hmem hns
    by_cases hb : b ∈ seen
    · simp only [dedupAux, if_pos hb]
      rcases List.mem_cons.mp hmem with h | h
      · exact absurd (h ▸ hb) hns
      · exact ih h hns
    · simp only [dedupAux, if_neg hb]
      rcases List.mem_cons.mp hmem with h | h
      · exact h ▸ List.mem_cons_self _ _
      · by_cases hab : a = b
        · exact hab ▸ List.mem_cons_self _ _
        · refine List.mem_cons_of_mem _ (ih h ?_)
          intro hc
          rcases List.mem_cons.mp hc with h2 | h2
          · exact hab h2
          · exact hns h2

theorem candList_ne_nil (base : String) (cep : Option String) (meta : NormMeta)
    (cidade uf country : String)
    (h : base ≠ "" ∨ cep.isSome = true ∨ meta.street ≠ "") :
    candList base cep meta cidade uf country ≠ [] := by
  rcases h with h | h | h
  · cases cep <;> simp [candList, h]
  · cases cep with
    | none => simp at h
    | some pc => simp [candList]
  · cases cep <;> simp [candList, h]

theorem build_candidates_ne_nil {raw : String} (cidade uf country : String)
    (h : (normalize_for_geocode raw).1 ≠ "" ∨
      (normalize_for_geocode raw).2.1.isSome = true ∨
      (normalize_for_geocode raw).2.2.street ≠ "") :
    (build_candidates raw cidade uf country).1 ≠ [] := by
  have := candList_ne_nil (normalize_for_geocode raw).1
    (normalize_for_geocode raw).2.1 (normalize_for_geocode raw).2.2
    cidade uf country h
  simpa [build_candidates] using dedupKeepFirst_ne_nil this

theorem parseDecimal_empty : parseDecimal "" = none := by decide

theorem valid_nominatim_parses {loc : Loc} {c u : String} {bb : Option BBox}
    {eh : Bool} (h : is_valid_nominatim loc c u bb eh = true) :
    (parseDecimal loc.latStr).isSome = true ∧ (parseDecimal loc.lonStr).isSome = true := by
  unfold is_valid_nominatim at h
  repeat' split at h
  all_goals simp_all

theorem valid_arcgis_parses {loc : Loc} {c u : String} {bb : Option BBox}
    {eh : Bool} (h : is_valid_arcgis loc c u bb eh = true) :
    (parseDecimal loc.latStr).isSome = true ∧ (parseDecimal loc.lonStr).isSome = true := by
  unfold is_valid_arcgis at h
  repeat' split at h
  all_goals simp_all

theorem tryProviderNom_fst {nomF : Candidate → POut} {c u : String}
    {bb : Option BBox} {eh : Bool} :
    ∀ {cands : List Candidate},
      (tryProviderNom nomF c u bb eh cands).1 = none ∨
      ∃ loc, (tryProviderNom nomF c u bb eh cands).1 = some loc ∧
        is_valid_nominatim loc c u bb eh = true := by
  intro cands
  induction cands with
  | nil => left; rfl
  | cons q rest ih =>
    simp only [tryProviderNom]
    cases hq : nomF q with
    | hit loc =>
      by_cases hv : is_valid_nominatim loc c u bb eh = true
      · right; exact ⟨loc, by simp [hv], hv⟩
      · simpa [hv] using ih
    | raises => simpa using ih
    | nohit => simpa using ih

theorem tryProviderArc_fst {arcF : String → POut} {c u : String}
    {bb : Option BBox} {eh : Bool} :
    ∀ {cands : List Candidate},
      (tryProviderArc arcF c u bb eh cands).1 = none ∨
      ∃ loc, (tryProviderArc arcF c u bb eh cands).1 = some loc ∧
        is_valid_arcgis loc c u bb eh = true := by
  intro cands
  induction cands with
  | nil => left; rfl
  | cons q rest ih =>
    simp only [tryProviderArc]
    cases hq : arcF (candToArcStr q) with
    | hit loc =>
      by_cases hv : is_valid_arcgis loc c u bb eh = true
      · right; exact ⟨loc, by simp [hv], hv⟩
      · simpa [hv] using ih
    | raises => simpa using ih
    | nohit => simpa using ih

/-- Case analysis on the 4-tuple returned by `geocode_with_providers`: it is
either the failure tuple with reason `"no_valid_hit"`, or a validated hit
whose coordinate strings parse (hence are non-empty) and whose reason is
empty. -/
theorem gwp_spec (nomF : Candidate → POut) (arcF : String → POut)
    (cands : List Candidate) (bb : Option BBox) (c u : String) (eh : Bool) :
    (let r := geocode_with_providers nomF arcF cands bb c u eh
     (r.latitude = "" ∧ r.longitude = "" ∧ r.provider = "" ∧ r.reason = "no_valid_hit") ∨
     ((parseDecimal r.latitude).isSome = true ∧ (parseDecimal r.longitude).isSome = true ∧
       r.reason = "")) := by
  simp only [geocode_with_providers]
  rcases hn : tryProviderNom nomF c u bb eh cands with ⟨o, n⟩
  cases o with
  | some loc =>
    rcases @tryProviderNom_fst nomF c u bb eh cands with h | ⟨loc2, h2, hv⟩
    · rw [hn] at h; exact absurd h (by simp)
    · rw [hn] at h2
      simp only [Option.some.injEq] at h2
      right
      have hp := valid_nominatim_parses (h2 ▸ hv)
      exact ⟨hp.1, hp.2, rfl⟩
  | none =>
    rcases ha : tryProviderArc arcF c u bb eh cands with ⟨o2, m⟩
    cases o2 with
    | some loc =>
      rcases @tryProviderArc_fst arcF c u bb eh cands with h | ⟨loc2, h2, hv⟩
      · rw [ha] at h; exact absurd h (by simp)
      · rw [ha] at h2
        simp only [Option.some.injEq] at h2
        right
        have hp := valid_arcgis_parses (h2 ▸ hv)
        exact ⟨hp.1, hp.2, rfl⟩
    | none => left; exact ⟨rfl, rfl, rfl, rfl⟩

/-- The property every failure-log row satisfies: constant reason
`"no_valid_hit"`, the full ordered candidate list of its own query, and the
first candidate as `norm_base`. -/
def failRowShape (cidade uf : String) (f : FailRow) : Prop :=
  f.reason = "no_valid_hit" ∧
    f.candidates = (build_candidates f.query cidade uf "Brasil").1 ∧
    f.norm_base = (build_candidates f.query cidade uf "Brasil").1.head?

theorem checkpoint_failRows (st : LoopState) :
    (checkpoint st).failRows = st.failRows := by
  by_cases h1 : st.novos.isEmpty <;> by_cases h2 : st.failRows.isEmpty <;>
    simp [checkpoint, h1, h2]

theorem checkpoint_cacheWrites (st : LoopState) :
    countCacheWrites (checkpoint st).events = countCacheWrites st.events := by
  by_cases h1 : st.novos.isEmpty <;> by_cases h2 : st.failRows.isEmpty <;>
    simp [checkpoint, h1, h2, countCacheWrites, List.countP_append, isCacheWrite]

theorem checkpoint_idle {st : LoopState} (h1 : st.novos = []) (h2 : st.failRows = []) :
    checkpoint st = st := by
  unfold checkpoint
  simp [h1, h2]

theorem stepBody_failRows {nomF : Candidate → POut} {arcF : String → POut}
    {bb : Option BBox} {cidade uf : String} (st : LoopState) (q : String) :
    (stepBody nomF arcF bb cidade uf st q).failRows = st.failRows ∨
    ∃ f, (stepBody nomF arcF bb cidade uf st q).failRows = st.failRows ++ [f] ∧
      failRowShape cidade uf f := by
  have hspec := gwp_spec nomF arcF (build_candidates q cidade uf "Brasil").1 bb cidade uf
    (build_candidates q cidade uf "Brasil").2.expects_house
  simp only at hspec
  simp only [stepBody]
  split
  · left; rfl
  · right
    rename_i hcond
    refine ⟨_, rfl, ?_⟩
    rcases hspec with hfail | hgood
    · exact ⟨hfail.2.2.2, rfl, rfl⟩
    · exfalso
      apply hcond
      constructor
      · intro he
        rw [he, parseDecimal_empty] at hgood
        simp at hgood
      · intro he
        rw [he, parseDecimal_empty] at hgood
        simp at hgood

theorem stepBody_cacheWrites {nomF : Candidate → POut} {arcF : String → POut}
    {bb : Option BBox} {cidade uf : String} (st : LoopState) (q : String) :
    countCacheWrites (stepBody nomF arcF bb cidade uf st q).events =
      countCacheWrites st.events := by
  simp only [stepBody]
  split <;> rfl

theorem stepAddr_failRows {nomF : Candidate → POut} {arcF : String → POut}
    {bb : Option BBox} {cidade uf : String} {st : LoopState} {i : Nat} {q : String}
    {f : FailRow} (hf : f ∈ (stepAddr nomF arcF bb cidade uf st i q).failRows) :
    f ∈ st.failRows ∨ failRowShape cidade uf f := by
  unfold stepAddr at hf
  have hb : f ∈ (stepBody nomF arcF bb cidade uf st q).failRows := by
    split at hf
    · rwa [checkpoint_failRows] at hf
    · exact hf
  rcases @stepBody_failRows nomF arcF bb cidade uf st q with h | ⟨g, hg, hsh⟩
  · exact Or.inl (h ▸ hb)
  · rw [hg] at hb
    rcases List.mem_append.mp hb with h2 | h2
    · exact Or.inl h2
    · exact Or.inr (List.mem_singleton.mp h2 ▸ hsh)

theorem stepAddr_cacheWrites {nomF : Candidate → POut} {arcF : String → POut}
    {bb : Option BBox} {cidade uf : String} (st : LoopState) (i : Nat) (q : String) :
    countCacheWrites (stepAddr nomF arcF bb cidade uf st i q).events =
      countCacheWrites st.events := by
  unfold stepAddr
  split
  · rw [checkpoint_cacheWrites, stepBody_cacheWrites]
  · rw [stepBody_cacheWrites]

theorem runLoopAux_failRows {nomF : Candidate → POut} {arcF : String → POut}
    {bb : Option BBox} {cidade uf : String} :
    ∀ {pend : List String} {i : Nat} {st : LoopState},
      (∀ f ∈ st.failRows, failRowShape cidade uf f) →
      ∀ f ∈ (runLoopAux nomF arcF bb cidade uf i pend st).failRows,
        failRowShape cidade uf f := by
  intro pend
  induction pend with
  | nil => intro i st h f hf; exact h f hf
  | cons q rest ih =>
    intro i st h f hf
    refine ih ?_ f hf
    intro g hg
    rcases stepAddr_failRows hg with h2 | h2
    · exact h g h2
    · exact h2

theorem runLoopAux_cacheWrites {nomF : Candidate → POut} {arcF : String → POut}
    {bb : Option BBox} {cidade uf : String} :
    ∀ {pend : List String} {i : Nat} {st : LoopState},
      countCacheWrites (runLoopAux nomF arcF bb cidade uf i pend st).events =
        countCacheWrites st.events := by
  intro pend
  induction pend with
  | nil => intro i st; rfl
  | cons q rest ih =>
    intro i st
    rw [runLoopAux, ih, stepAddr_cacheWrites]

theorem mem_dedupByQueryAux_not_seen {r : CacheRow} :
    ∀ {rows : List CacheRow} {seen : List String},
      r ∈ dedupByQueryAux seen rows → r.query ∉ seen := by
  intro rows
  induction rows with
  | nil => intro seen h; cases h
  | cons s rest ih =>
    intro seen h
    by_cases hs : s.query ∈ seen
    · rw [dedupByQueryAux, if_pos hs] at h
      exact ih h
    · rw [dedupByQueryAux, if_neg hs] at h
      rcases List.mem_cons.mp h with h2 | h2
      · exact h2 ▸ hs
      · intro hc
        exact ih h2 (List.mem_cons_of_mem _ hc)

theorem dedupByQueryAux_keys_nodup :
    ∀ (rows : List CacheRow) (seen : List String),
      ((dedupByQueryAux seen rows).map CacheRow.query).Nodup := by
  intro rows
  induction rows with
  | nil => intro seen; simp [dedupByQueryAux]
  | cons s rest ih =>
    intro seen
    by_cases hs : s.query ∈ seen
    · rw [dedupByQueryAux, if_pos hs]; exact ih seen
    · rw [dedupByQueryAux, if_neg hs]
      rw [List.map_cons, List.nodup_cons]
      refine ⟨?_, ih _⟩
      intro hc
      rcases List.mem_map.mp hc with ⟨x, hx, hxq⟩
      exact mem_dedupByQueryAux_not_seen hx (hxq ▸ List.mem_cons_self _ _)

theorem lookupQ_cons (s : CacheRow) (rest : List CacheRow) (q : String) :
    lookupQ (s :: rest) q =
      if s.query == q then some (s.latitude, s.longitude) else lookupQ rest q := by
  by_cases h : (s.query == q) = true <;> simp [lookupQ, List.find?, h]

theorem lookupQ_dedupByQueryAux {q : String} :
    ∀ {rows : List CacheRow} {seen : List String}, q ∉ seen →
      lookupQ (dedupByQueryAux seen rows) q = lookupQ rows q := by
  intro rows
  induction rows with
  | nil => intro seen _; rfl
  | cons s rest ih =>
    intro seen hq
    by_cases hs : s.query ∈ seen
    · have hne : (s.query == q) = false := by
        simp only [beq_eq_false_iff_ne, ne_eq]
        intro hc; exact hq (hc ▸ hs)
      rw [dedupByQueryAux, if_pos hs, ih hq, lookupQ_cons, hne]
      simp
    · rw [dedupByQueryAux, if_neg hs, lookupQ_cons, lookupQ_cons]
      by_cases hbe : (s.query == q) = true
      · simp [hbe]
      · have hq2 : q ∉ s.query :: seen := by
          intro hc
          rcases List.mem_cons.mp hc with h2 | h2
          · exact hbe (beq_iff_eq.mpr h2.symm)
          · exact hq h2
        simp only [hbe, Bool.false_eq_true, if_false]
        exact ih hq2

/-- pandas `drop_duplicates("query")` yields one row per distinct query. -/
theorem dedupByQuery_keys_nodup (rows : List CacheRow) :
    ((dedupByQuery rows).map CacheRow.query).Nodup :=
  dedupByQueryAux_keys_nodup rows []

/-- pandas `drop_duplicates("query")` keeps the first row per query: lookup
(which returns the first matching row) is preserved. -/
theorem lookupQ_dedupByQuery (rows : List CacheRow) (q : String) :
    lookupQ (dedupByQuery rows) q = lookupQ rows q :=
  lookupQ_dedupByQueryAux (by simp)

theorem dictUpsert_keys (m : List CacheRow) (r : CacheRow) :
    (dictUpsert m r).map CacheRow.query =
      if m.any (fun x => x.query == r.query) then m.map CacheRow.query
      else m.map CacheRow.query ++ [r.query] := by
  unfold dictUpsert
  split
  · rw [List.map_map]
    apply List.map_congr_left
    intro x _
    show (if x.query == r.query then
      (⟨x.query, r.latitude, r.longitude⟩ : CacheRow) else x).query = x.query
    split <;> rfl
  · simp

theorem dictUpsert_keys_nodup {m : List CacheRow} (r : CacheRow)
    (h : (m.map CacheRow.query).Nodup) :
    ((dictUpsert m r).map CacheRow.query).Nodup := by
  rw [dictUpsert_keys]
  split
  · exact h
  · rename_i hany
    have hnm : r.query ∉ m.map CacheRow.query := by
      intro hc
      rcases List.mem_map.mp hc with ⟨x, hx, hxq⟩
      exact hany (List.any_eq_true.mpr ⟨x, hx, beq_iff_eq.mpr hxq⟩)
    simp [List.nodup_append, h, hnm, List.disjoint_singleton]

theorem dictLast_keys_nodup (rows : List CacheRow) :
    ((dictLast rows).map CacheRow.query).Nodup := by
  have hgen : ∀ (l : List CacheRow) (acc : List CacheRow),
      ((acc.map CacheRow.query).Nodup) →
      ((l.foldl dictUpsert acc).map CacheRow.query).Nodup := by
    intro l
    induction l with
    | nil => intro acc h; exact h
    | cons r rest ih =>
      intro acc h
      exact ih _ (dictUpsert_keys_nodup r h)
  exact hgen rows [] (by simp)

theorem lookupQ_some_mem {m : List CacheRow} {q la lo : String}
    (h : lookupQ m q = some (la, lo)) :
    ∃ r ∈ m, r.query = q ∧ r.latitude = la ∧ r.longitude = lo := by
  unfold lookupQ at h
  rcases hf : m.find? (fun r => r.query == q) with _ | r
  · rw [hf] at h; cases h
  · rw [hf] at h
    simp only [Option.some.injEq, Prod.mk.injEq] at h
    have hp := List.find?_some hf
    simp only [beq_iff_eq] at hp
    exact ⟨r, List.mem_of_find?_eq_some hf, hp, h.1, h.2⟩

theorem lookupQ_eq_none {m : List CacheRow} {q : String}
    (h : ∀ r ∈ m, r.query ≠ q) : lookupQ m q = none := by
  unfold lookupQ
  rw [List.find?_eq_none.mpr]
  intro r hr
  simpa using h r hr

/-- Collapse a raised exception to a no-hit outcome (what the bare
`except ... pass` of mapa.py lines 353-354 / 364-365 amounts to). -/
def eraseRaises : POut → POut
  | POut.raises => POut.nohit
  | x => x

/-- Did the Nominatim attempt for candidate `q` return a response passing the
validator? -/
def nomAttemptOk (nomF : Candidate → POut) (cidade uf : String)
    (bbox : Option BBox) (expects_house : Bool) (q : Candidate) : Bool :=
  match nomF q with
  | POut.hit loc => is_valid_nominatim loc cidade uf bbox expects_house
  | _ => false

/-- Did the ArcGIS attempt for candidate `q` return a response passing the
validator? -/
def arcAttemptOk (arcF : String → POut) (cidade uf : String)
    (bbox : Option BBox) (expects_house : Bool) (q : Candidate) : Bool :=
  match arcF (candToArcStr q) with
  | POut.hit loc => is_valid_arcgis loc cidade uf bbox expects_house
  | _ => false

theorem tryProviderNom_erase (nomF : Candidate → POut) (cidade uf : String)
    (bbox : Option BBox) (eh : Bool) (cands : List Candidate) :
    tryProviderNom nomF cidade uf bbox eh cands =
      tryProviderNom (fun q => eraseRaises (nomF q)) cidade uf bbox eh cands := by
  induction cands with
  | nil => rfl
  | cons q rest ih =>
    simp only [tryProviderNom]
    cases hq : nomF q <;> simp [eraseRaises, hq, ih]

theorem tryProviderArc_erase (arcF : String → POut) (cidade uf : String)
    (bbox : Option BBox) (eh : Bool) (cands : List Candidate) :
    tryProviderArc arcF cidade uf bbox eh cands =
      tryProviderArc (fun s => eraseRaises (arcF s)) cidade uf bbox eh cands := by
  induction cands with
  | nil => rfl
  | cons q rest ih =>
    simp only [tryProviderArc]
    cases hq : arcF (candToArcStr q) <;> simp [eraseRaises, hq, ih]

theorem tryProviderNom_exhaust {nomF : Candidate → POut} {cidade uf : String}
    {bbox : Option BBox} {eh : Bool} :
    ∀ {cands : List Candidate},
      (∀ q ∈ cands, nomAttemptOk nomF cidade uf bbox eh q = false) →
      tryProviderNom nomF cidade uf bbox eh cands = (none, cands.length) := by
  intro cands
  induction cands with
  | nil => intro _; rfl
  | cons q rest ih =>
    intro h
    have hq := h q (List.mem_cons_self _ _)
    have hrest := ih (fun x hx => h x (List.mem_cons_of_mem _ hx))
    unfold nomAttemptOk at hq
    simp only [tryProviderNom]
    cases hc : nomF q with
    | hit loc =>
      rw [hc] at hq
      have hq2 : is_valid_nominatim loc cidade uf bbox eh = false := hq
      simp [hq2, hrest]
    | raises => simp [hrest]
    | nohit => simp [hrest]

theorem tryProviderArc_exhaust {arcF : String → POut} {cidade uf : String}
    {bbox : Option BBox} {eh : Bool} :
    ∀ {cands : List Candidate},
      (∀ q ∈ cands, arcAttemptOk arcF cidade uf bbox eh q = false) →
      tryProviderArc arcF cidade uf bbox eh cands = (none, cands.length) := by
  intro cands
  induction cands with
  | nil => intro _; rfl
  | cons q rest ih =>
    intro h
    have hq := h q (List.mem_cons_self _ _)
    have hrest := ih (fun x hx => h x (List.mem_cons_of_mem _ hx))
    unfold arcAttemptOk at hq
    simp only [tryProviderArc]
    cases hc : arcF (candToArcStr q) with
    | hit loc =>
      rw [hc] at hq
      have hq2 : is_valid_arcgis loc cidade uf bbox eh = false := hq
      simp [hq2, hrest]
    | raises => simp [hrest]
    | nohit => simp [hrest]

/-! ### Claim theorems -/

/-- A provider oracle that always returns no result. -/
def noHitNom : Candidate → POut := fun _ => POut.nohit

/-- A freetext provider oracle that always returns no result. -/
def noHitArc : String → POut := fun _ => POut.nohit

/-- C8: normalizing `"RUA A, 123 - CEP 13565-000"` yields base
`"RUA A, 123"` and postal code `"13565-000"` (8-digit CEP with the dash
convention of the source), with the CEP fragment removed from the base; the
street/number split succeeds and a house-number precision expectation is
set. -/
theorem C8_postal_extraction :
    normalize_for_geocode "RUA A, 123 - CEP 13565-000" =
      ("RUA A, 123", some "13565-000", ⟨"RUA A", "123", "", false, true⟩) := by
  decide

/-- C5 (amended): `build_candidates` returns at least one candidate for
every raw address whose normalization leaves a non-empty base, extracts a
postal code, or leaves a non-empty street token.  (The original claim — any
non-empty raw input yields a candidate — fails for inputs that normalize to
nothing, see the counterexample.) -/
theorem C5_candidate_nonempty (raw cidade uf country : String)
    (h : (normalize_for_geocode raw).1 ≠ "" ∨
      (normalize_for_geocode raw).2.1.isSome = true ∨
      (normalize_for_geocode raw).2.2.street ≠ "") :
    (build_candidates raw cidade uf country).1 ≠ [] :=
  build_candidates_ne_nil cidade uf country h

/-- C5 witness: a concrete address with a non-empty normalized base gets a
non-empty candidate list. -/
theorem C5_witness :
    ((normalize_for_geocode "RUA B, 9").1 ≠ "" ∨
      (normalize_for_geocode "RUA B, 9").2.1.isSome = true ∨
      (normalize_for_geocode "RUA B, 9").2.2.street ≠ "") ∧
    (build_candidates "RUA B, 9" "SAO CARLOS" "SP" "Brasil").1 ≠ [] :=
  ⟨Or.inl (by decide), C5_candidate_nonempty "RUA B, 9" "SAO CARLOS" "SP" "Brasil"
    (Or.inl (by decide))⟩

/-- C5 counterexample: the input `"-"` is a non-empty raw address string,
but it normalizes to an empty base with no CEP and no street token, so
`build_candidates` returns the empty list — refuting candidate
non-emptiness as claimed. -/
theorem C5_counterexample :
    ("-" : String) ≠ "" ∧ (build_candidates "-" "SAO CARLOS" "SP" "Brasil").1 = [] :=
  ⟨by decide, by decide⟩

/-- C6 (amended): the Nominatim hit validator rejects every response whose
raw class/type marks it as an administrative-boundary or city/town/village
place result, regardless of every other field, bounding box, or precision
flag.  (The ArcGIS validator performs no such check — see the
counterexample — so the original claim about "the hit validator" in
general is too strong.) -/
theorem C6_boundary_reject (loc : Loc) (city_expect uf_expect : String)
    (bbox : Option BBox) (expects_house : Bool)
    (h : is_boundary_or_place_city loc = true) :
    is_valid_nominatim loc city_expect uf_expect bbox expects_house = false := by
  unfold is_valid_nominatim
  simp [h]

/-- A boundary-flagged response whose other fields all match (used for C6). -/
def c6loc : Loc :=
  ⟨"boundary", "administrative",
   ⟨"br", "SAO CARLOS", "", "", "", "SAO PAULO", "SP", "1"⟩,
   "-22.0", "-47.9", "RUA Z, SAO CARLOS, SP"⟩

/-- C6 witness: the Nominatim validator rejects a concrete boundary-flagged
response even though city, state, country and coordinates all match. -/
theorem C6_witness :
    is_boundary_or_place_city c6loc = true ∧
    is_valid_nominatim c6loc "SAO CARLOS" "SP" none false = false :=
  ⟨by decide, C6_boundary_reject c6loc "SAO CARLOS" "SP" none false (by decide)⟩

/-- C6 counterexample: the same boundary-flagged response is accepted by the
ArcGIS validator (`is_valid_arcgis` never inspects the raw class/type), so
the claim that every provider response flagged as a boundary is rejected by
the hit validator is false for the ArcGIS path. -/
theorem C6_counterexample :
    is_boundary_or_place_city c6loc = true ∧
    is_valid_arcgis c6loc "SAO CARLOS" "SP" (some (-48, -23, -47, -21)) false = true :=
  ⟨by decide, by decide⟩

/-- C7 (amended): with a bounding box supplied, (1) both validators reject
every response whose parsed coordinate lies strictly outside it, whatever
the other fields; (2) the Nominatim validator accepts a strictly-inside
response with matching country, city and state and no house-number
expectation, provided it is not flagged as a boundary/place-city result;
(3) the ArcGIS validator accepts an inside response whose formatted address
matches the expected city and state.  (The original claim omitted the
boundary proviso; a boundary-flagged response matching everything and lying
inside the box is still rejected — see the counterexample.) -/
theorem C7_bbox_validation :
    (∀ (loc : Loc) (c u : String) (w s e n : ℚ) (eh : Bool) (la lo : ℚ),
        parseDecimal loc.latStr = some la → parseDecimal loc.lonStr = some lo →
        (la < s ∨ n < la ∨ lo < w ∨ e < lo) →
        is_valid_nominatim loc c u (some (w, s, e, n)) eh = false ∧
        is_valid_arcgis loc c u (some (w, s, e, n)) eh = false) ∧
    (∀ (loc : Loc) (c u : String) (w s e n : ℚ) (la lo : ℚ),
        is_boundary_or_place_city loc = false →
        pyLowerS loc.address.country_code = "br" →
        isSubstrS (pyUpperS c) (pyUpperS (addr_city_like loc.address)) = true →
        ((pyUpperS u == pyUpperS loc.address.state_code) ||
          isSubstrS (pyUpperS u) (pyUpperS loc.address.state)) = true →
        parseDecimal loc.latStr = some la → parseDecimal loc.lonStr = some lo →
        point_in_bbox la lo (some (w, s, e, n)) = true →
        is_valid_nominatim loc c u (some (w, s, e, n)) false = true) ∧
    (∀ (loc : Loc) (c u : String) (w s e n : ℚ) (eh : Bool) (la lo : ℚ),
        parseDecimal loc.latStr = some la → parseDecimal loc.lonStr = some lo →
        point_in_bbox la lo (some (w, s, e, n)) = true →
        isSubstrS (pyUpperS c) (pyUpperS loc.addressText) = true →
        (isSubstrS (", " ++ pyUpperS u ++ " ") (pyUpperS loc.addressText) ||
          endsWithS (pyUpperS loc.addressText) (", " ++ pyUpperS u)) = true →
        is_valid_arcgis loc c u (some (w, s, e, n)) eh = true) := by
  refine ⟨?_, ?_, ?_⟩
  · intro loc c u w s e n eh la lo h1 h2 h3
    have hpb : point_in_bbox la lo (some (w, s, e, n)) = false := by
      rcases h3 with h | h | h | h
      · have hd : decide (s ≤ la) = false := decide_eq_false (not_le.mpr h)
        simp [point_in_bbox, hd]
      · have hd : decide (la ≤ n) = false := decide_eq_false (not_le.mpr h)
        simp [point_in_bbox, hd]
      · have hd : decide (w ≤ lo) = false := decide_eq_false (not_le.mpr h)
        simp [point_in_bbox, hd]
      · have hd : decide (lo ≤ e) = false := decide_eq_false (not_le.mpr h)
        simp [point_in_bbox, hd]
    constructor
    · simp [is_valid_nominatim, h1, h2, hpb]
    · simp [is_valid_arcgis, h1, h2, hpb]
  · intro loc c u w s e n la lo hb hcc hc hu h1 h2 hpb
    simp [is_valid_nominatim, hb, hcc, hc, hu, h1, h2, hpb]
  · intro loc c u w s e n eh la lo h1 h2 hpb hc hu
    simp [is_valid_arcgis, h1, h2, hpb, hc, hu]

/-- Out-of-box response used in the C7 witness. -/
def c7locOut : Loc :=
  ⟨"", "", ⟨"br", "SAO CARLOS", "", "", "", "SAO PAULO", "SP", ""⟩,
   "-30.0", "-47.9", "RUA Z, SAO CARLOS, SP"⟩

/-- In-box matching Nominatim response used in the C7 witness. -/
def c7locIn : Loc :=
  ⟨"", "", ⟨"br", "SAO CARLOS", "", "", "", "SAO PAULO", "SP", ""⟩,
   "-22.0", "-47.9", ""⟩

/-- In-box matching ArcGIS response used in the C7 witness. -/
def c7locArc : Loc :=
  ⟨"", "", ⟨"", "", "", "", "", "", "", ""⟩,
   "-22.0", "-47.9", "RUA Z, SAO CARLOS, SP"⟩

/-- C7 witness: concrete instances of all three parts. -/
theorem C7_witness :
    (is_valid_nominatim c7locOut "SAO CARLOS" "SP" (some (-48, -23, -47, -21)) false = false ∧
      is_valid_arcgis c7locOut "SAO CARLOS" "SP" (some (-48, -23, -47, -21)) false = false) ∧
    is_valid_nominatim c7locIn "SAO CARLOS" "SP" (some (-48, -23, -47, -21)) false = true ∧
    is_valid_arcgis c7locArc "SAO CARLOS" "SP" (some (-48, -23, -47, -21)) true = true :=
  ⟨C7_bbox_validation.1 c7locOut "SAO CARLOS" "SP" (-48) (-23) (-47) (-21) false
      (-30) (mkRat (-479) 10) (by decide) (by decide) (Or.inl (by decide)),
   C7_bbox_validation.2.1 c7locIn "SAO CARLOS" "SP" (-48) (-23) (-47) (-21)
      (-22) (mkRat (-479) 10) (by decide) (by decide) (by decide) (by decide)
      (by decide) (by decide) (by decide),
   C7_bbox_validation.2.2 c7locArc "SAO CARLOS" "SP" (-48) (-23) (-47) (-21) true
      (-22) (mkRat (-479) 10) (by decide) (by decide) (by decide) (by decide) (by decide)⟩

/-- Boundary-flagged, fully matching, strictly-inside response used for the
C7 counterexample. -/
def c7locB : Loc :=
  ⟨"boundary", "administrative",
   ⟨"br", "SAO CARLOS", "", "", "", "SAO PAULO", "SP", ""⟩,
   "-22.0", "-47.9", ""⟩

/-- C7 counterexample: a response strictly inside the bounding box with
matching city, state and country and no house-number requirement is
nevertheless rejected, because it is boundary-flagged — refuting the
claim's unconditional acceptance direction. -/
theorem C7_counterexample :
    point_in_bbox (-22) (mkRat (-479) 10) (some (-48, -23, -47, -21)) = true ∧
    parseDecimal c7locB.latStr = some (-22) ∧
    parseDecimal c7locB.lonStr = some (mkRat (-479) 10) ∧
    pyLowerS c7locB.address.country_code = "br" ∧
    isSubstrS (pyUpperS "SAO CARLOS") (pyUpperS (addr_city_like c7locB.address)) = true ∧
    ((pyUpperS "SP" == pyUpperS c7locB.address.state_code) ||
      isSubstrS (pyUpperS "SP") (pyUpperS c7locB.address.state)) = true ∧
    is_valid_nominatim c7locB "SAO CARLOS" "SP" (some (-48, -23, -47, -21)) false = false := by
  refine ⟨?_, ?_, ?_, ?_, ?_, ?_, ?_⟩ <;> decide

/-- C9: exceptions raised by single provider calls never propagate out of
`geocode_with_providers` — an attempt that raises behaves exactly like an
attempt that returns no result, so the next candidate/provider is tried
(part 1); and when every Nominatim and ArcGIS attempt fails to produce a
validated hit, the function returns empty latitude, longitude and provider
with reason exactly `"no_valid_hit"` (part 2, which also fixes the call
count at one call per candidate per provider). -/
theorem C9_provider_exception_containment :
    (∀ (nomF : Candidate → POut) (arcF : String → POut) (cands : List Candidate)
        (bb : Option BBox) (cidade uf : String) (eh : Bool),
        geocode_with_providers nomF arcF cands bb cidade uf eh =
          geocode_with_providers (fun q => eraseRaises (nomF q))
            (fun s2 => eraseRaises (arcF s2)) cands bb cidade uf eh) ∧
    (∀ (nomF : Candidate → POut) (arcF : String → POut) (cands : List Candidate)
        (bb : Option BBox) (cidade uf : String) (eh : Bool),
        (∀ q ∈ cands, nomAttemptOk nomF cidade uf bb eh q = false ∧
          arcAttemptOk arcF cidade uf bb eh q = false) →
        geocode_with_providers nomF arcF cands bb cidade uf eh =
          ⟨"", "", "", "no_valid_hit", cands.length + cands.length⟩) := by
  constructor
  · intro nomF arcF cands bb cidade uf eh
    unfold geocode_with_providers
    rw [← tryProviderNom_erase, ← tryProviderArc_erase]
  · intro nomF arcF cands bb cidade uf eh h
    unfold geocode_with_providers
    rw [tryProviderNom_exhaust (fun q hq => (h q hq).1),
      tryProviderArc_exhaust (fun q hq => (h q hq).2)]

/-- An always-raising Nominatim oracle (used in the C9 witness). -/
def c9nom : Candidate → POut := fun _ => POut.raises

/-- An always-raising ArcGIS oracle (used in the C9 witness). -/
def c9arc : String → POut := fun _ => POut.raises

/-- C9 witness: with one candidate and both providers raising on every
call, the resolver swallows the exceptions and returns the
`"no_valid_hit"` failure tuple after one call per provider. -/
theorem C9_witness :
    (∀ q ∈ [Candidate.freeText "X"],
      nomAttemptOk c9nom "SAO CARLOS" "SP" none false q = false ∧
      arcAttemptOk c9arc "SAO CARLOS" "SP" none false q = false) ∧
    geocode_with_providers c9nom c9arc [Candidate.freeText "X"] none
      "SAO CARLOS" "SP" false = ⟨"", "", "", "no_valid_hit", 2⟩ :=
  ⟨by decide, C9_provider_exception_containment.2 c9nom c9arc
    [Candidate.freeText "X"] none "SAO CARLOS" "SP" false (by decide)⟩

/-- C4 (amended): every row of the failure log records the original query,
the full ordered candidate list attempted for that query (with the first
candidate as `norm_base`), and the constant reason `"no_valid_hit"`.  (The
source never classifies failures any further: there are no `reject:*`
codes and no `"no_hit_all"` — see the counterexample.) -/
theorem C4_failure_reason (nomF : Candidate → POut) (arcF : String → POut)
    (inputs : List String) (rows : List CacheRow) (bb : Option BBox)
    (centroid : Option (ℚ × ℚ)) (cidade uf : String) (mx : Option Nat)
    (f : FailRow)
    (hf : f ∈ (geocode_addresses nomF arcF inputs rows bb centroid cidade uf mx).failRows) :
    f.reason = "no_valid_hit" ∧
      f.candidates = (build_candidates f.query cidade uf "Brasil").1 ∧
      f.norm_base = (build_candidates f.query cidade uf "Brasil").1.head? := by
  simp only [geocode_addresses] at hf
  rw [checkpoint_failRows] at hf
  exact runLoopAux_failRows (fun g hg => absurd hg (by simp)) f hf

/-- The failure row produced for the unresolvable address `"R0"` (used in
the C4 witness). -/
def c4row : FailRow :=
  ⟨"R0", some (Candidate.streetQ "R0" "SAO CARLOS" "SP" "Brasil"), false, false,
   [Candidate.streetQ "R0" "SAO CARLOS" "SP" "Brasil",
    Candidate.freeText "R0, SAO CARLOS, SP, Brasil"], "no_valid_hit"⟩

/-- C4 witness: the concrete failure row of a no-hit run carries reason
`"no_valid_hit"` and the full candidate list of its query. -/
theorem C4_witness :
    c4row ∈ (geocode_addresses noHitNom noHitArc ["R0"] [] none none
      "SAO CARLOS" "SP" none).failRows ∧
    c4row.reason = "no_valid_hit" ∧
    c4row.candidates = (build_candidates c4row.query "SAO CARLOS" "SP" "Brasil").1 ∧
    c4row.norm_base = (build_candidates c4row.query "SAO CARLOS" "SP" "Brasil").1.head? :=
  ⟨by decide, C4_failure_reason noHitNom noHitArc ["R0"] [] none none
    "SAO CARLOS" "SP" none c4row (by decide)⟩

/-- C4 counterexample: for an address where every attempt returned no
result at all, the claim prescribes reason `"no_hit_all"`; the code records
`"no_valid_hit"` instead (and no `reject:*` code ever occurs). -/
theorem C4_counterexample :
    ((geocode_addresses noHitNom noHitArc ["R0"] [] none none "SAO CARLOS" "SP"
      none).failRows.map FailRow.reason) = ["no_valid_hit"] ∧
    ("no_valid_hit" : String) ≠ "no_hit_all" := by
  constructor <;> decide

/-- C10: the centroid-suspect pre-pass of `geocode_addresses` drops from
the effective cache every entry whose latitude or longitude does not parse
as a float — in particular every cached empty-coordinate (known-unresolved)
entry — regardless of the centroid or of any precision expectation, so such
queries re-enter the pending set whenever they occur in the input. -/
theorem C10_unparsable_cache_dropped (rows : List CacheRow) (inputs : List String)
    (centroid : Option (ℚ × ℚ)) (q la lo : String)
    (hlk : lookupQ (dictLast rows) q = some (la, lo))
    (hbad : parseDecimal la = none ∨ parseDecimal lo = none) :
    lookupQ (cleanedCache (dictLast rows) centroid) q = none ∧
      (q ∈ inputs → q ∈ pendingOf inputs (cleanedCache (dictLast rows) centroid)) := by
  obtain ⟨r, hrmem, hrq, hrla, hrlo⟩ := lookupQ_some_mem hlk
  have hkeep : keepCacheRow centroid r = false := by
    unfold keepCacheRow
    rcases hbad with hb | hb
    · rw [hrla, hb]
    · rw [hrlo, hb]
      rcases hp : parseDecimal r.latitude with _ | v <;> rfl
  have hnone : lookupQ (cleanedCache (dictLast rows) centroid) q = none := by
    apply lookupQ_eq_none
    intro x hx hxq
    have hx2 := List.mem_filter.mp hx
    have hxr : x = r :=
      List.inj_on_of_nodup_map (dictLast_keys_nodup rows) hx2.1 hrmem
        (hxq.trans hrq.symm)
    rw [hxr, hkeep] at hx2
    exact absurd hx2.2 (by simp)
  refine ⟨hnone, fun hqin => ?_⟩
  unfold pendingOf dedupKeepFirst
  refine mem_dedupAux ?_ (by simp)
  exact List.mem_filter.mpr ⟨hqin, by simp [hnone]⟩

/-- C10 witness: a cached known-unresolved entry (empty coordinates) is
dropped by the pre-pass and its query is pending again. -/
theorem C10_witness :
    lookupQ (dictLast [⟨"Q", "", ""⟩]) "Q" = some ("", "") ∧
    parseDecimal "" = none ∧
    lookupQ (cleanedCache (dictLast [⟨"Q", "", ""⟩]) none) "Q" = none ∧
    "Q" ∈ pendingOf ["Q"] (cleanedCache (dictLast [⟨"Q", "", ""⟩]) none) :=
  ⟨by decide, by decide,
   (C10_unparsable_cache_dropped [⟨"Q", "", ""⟩] ["Q"] none "Q" "" ""
     (by decide) (Or.inl (by decide))).1,
   (C10_unparsable_cache_dropped [⟨"Q", "", ""⟩] ["Q"] none "Q" "" ""
     (by decide) (Or.inl (by decide))).2 (by decide)⟩

/-- C1 (amended): a run whose every input address survives in the cleaned
cache (that is, its entry parses and is not discarded by the
centroid-suspect pass) has an empty pending set, performs zero per-address
provider calls, writes no failure rows or files, and leaves the cache
exactly as it was — so rerunning on such a cache is idempotent.  (The
original claim fails for addresses cached as unresolved with empty
coordinates: those entries are dropped by the pre-pass and re-queried on
every run — see the counterexample.) -/
theorem C1_rerun_idempotence (nomF : Candidate → POut) (arcF : String → POut)
    (inputs : List String) (rows : List CacheRow) (bb : Option BBox)
    (centroid : Option (ℚ × ℚ)) (cidade uf : String) (mx : Option Nat)
    (h : ∀ q ∈ inputs,
      (lookupQ (cleanedCache (dictLast rows) centroid) q).isSome = true) :
    (geocode_addresses nomF arcF inputs rows bb centroid cidade uf mx).pend = [] ∧
    (geocode_addresses nomF arcF inputs rows bb centroid cidade uf mx).providerCalls = 0 ∧
    (geocode_addresses nomF arcF inputs rows bb centroid cidade uf mx).geocache = rows ∧
    (geocode_addresses nomF arcF inputs rows bb centroid cidade uf mx).failRows = [] ∧
    (geocode_addresses nomF arcF inputs rows bb centroid cidade uf mx).events = [] := by
  have hfil : inputs.filter
      (fun q => (lookupQ (cleanedCache (dictLast rows) centroid) q).isNone) = [] := by
    apply List.filter_eq_nil_iff.mpr
    intro a ha
    have ha2 := h a ha
    cases hx : lookupQ (cleanedCache (dictLast rows) centroid) a <;> simp_all
  have hpend : pendingOf inputs (cleanedCache (dictLast rows) centroid) = [] := by
    unfold pendingOf dedupKeepFirst
    rw [hfil]
    rfl
  cases mx <;>
    simp [geocode_addresses, hpend, runLoopAux, checkpoint]

/-- C1 witness: with the single input address cached with parseable
coordinates, the run is a no-op that performs zero provider calls. -/
theorem C1_witness :
    (∀ q ∈ ["RUA X"],
      (lookupQ (cleanedCache (dictLast [⟨"RUA X", "1.5", "2.5"⟩]) none) q).isSome = true) ∧
    (geocode_addresses noHitNom noHitArc ["RUA X"] [⟨"RUA X", "1.5", "2.5"⟩]
      none none "SAO CARLOS" "SP" none).pend = [] ∧
    (geocode_addresses noHitNom noHitArc ["RUA X"] [⟨"RUA X", "1.5", "2.5"⟩]
      none none "SAO CARLOS" "SP" none).providerCalls = 0 ∧
    (geocode_addresses noHitNom noHitArc ["RUA X"] [⟨"RUA X", "1.5", "2.5"⟩]
      none none "SAO CARLOS" "SP" none).geocache = [⟨"RUA X", "1.5", "2.5"⟩] ∧
    (geocode_addresses noHitNom noHitArc ["RUA X"] [⟨"RUA X", "1.5", "2.5"⟩]
      none none "SAO CARLOS" "SP" none).failRows = [] ∧
    (geocode_addresses noHitNom noHitArc ["RUA X"] [⟨"RUA X", "1.5", "2.5"⟩]
      none none "SAO CARLOS" "SP" none).events = [] :=
  ⟨by decide, C1_rerun_idempotence noHitNom noHitArc ["RUA X"]
    [⟨"RUA X", "1.5", "2.5"⟩] none none "SAO CARLOS" "SP" none (by decide)⟩

/-- C1 counterexample: an address unresolved in the first run is recorded
in the cache with empty coordinates, yet the second run over the unchanged
cache puts it back into the pending set and performs provider calls — the
second run is not provider-call-free, refuting rerun idempotence as
claimed. -/
theorem C1_counterexample :
    (geocode_addresses noHitNom noHitArc ["RUA A, 123"] [] none none
      "SAO CARLOS" "SP" none).geocache = [⟨"RUA A, 123", "", ""⟩] ∧
    (geocode_addresses noHitNom noHitArc ["RUA A, 123"]
      (geocode_addresses noHitNom noHitArc ["RUA A, 123"] [] none none
        "SAO CARLOS" "SP" none).geocache
      none none "SAO CARLOS" "SP" none).pend = ["RUA A, 123"] ∧
    (geocode_addresses noHitNom noHitArc ["RUA A, 123"]
      (geocode_addresses noHitNom noHitArc ["RUA A, 123"] [] none none
        "SAO CARLOS" "SP" none).geocache
      none none "SAO CARLOS" "SP" none).providerCalls ≠ 0 := by
  refine ⟨?_, ?_, ?_⟩ <;> decide

/-- C2 (amended): `geocode_addresses` itself never writes the cache file —
the periodic `i % 50 == 0` checkpoint only merges new rows into the
in-memory cache and rewrites the failure log — and a whole `main` run
writes the cache file exactly once, at the end (`save_geocache`).  (The
claim that the cache is persisted after every 50 processed addresses is
refuted by the counterexample: an interruption mid-run loses every cache
entry of the run, not just the last partial batch.) -/
theorem C2_cache_checkpoint (nomF : Candidate → POut) (arcF : String → POut)
    (inputs : List String) (rows : List CacheRow) (bb : Option BBox)
    (centroid : Option (ℚ × ℚ)) (cidade uf : String) (mx : Option Nat) :
    countCacheWrites
      (geocode_addresses nomF arcF inputs rows bb centroid cidade uf mx).events = 0 ∧
    countCacheWrites
      (mainEvents nomF arcF inputs rows bb centroid cidade uf mx).1 = 1 := by
  have h1 : countCacheWrites
      (geocode_addresses nomF arcF inputs rows bb centroid cidade uf mx).events = 0 := by
    simp only [geocode_addresses]
    rw [checkpoint_cacheWrites, runLoopAux_cacheWrites]
    rfl
  refine ⟨h1, ?_⟩
  have h1' := h1
  unfold countCacheWrites at h1'
  simp [mainEvents, countCacheWrites, List.countP_append, save_geocache,
    isCacheWrite, h1']

/-- Fifty distinct pending addresses (used in the C2 counterexample). -/
def c2inputs : List String := (List.range 50).map (fun n => "R" ++ toString n)

/-- C2 counterexample: a run with 50 processed addresses performs zero
cache-file writes during `geocode_addresses` and exactly one in the whole
`main` run — not the at-least-two (one at the 50th address, one at the end)
the claim requires. -/
theorem C2_counterexample :
    (mainEvents noHitNom noHitArc c2inputs [] none none
      "SAO CARLOS" "SP" none).2.pend.length = 50 ∧
    countCacheWrites (mainEvents noHitNom noHitArc c2inputs [] none none
      "SAO CARLOS" "SP" none).2.events = 0 ∧
    countCacheWrites (mainEvents noHitNom noHitArc c2inputs [] none none
      "SAO CARLOS" "SP" none).1 = 1 := by
  refine ⟨?_, ?_, ?_⟩ <;> decide

/-- C3 (amended): the cache persisted by `save_geocache` has exactly one
row per distinct query, and for every query it keeps the *first* recorded
row — pandas `drop_duplicates` keeps the earliest occurrence, so for a
query recorded more than once (e.g. a stale entry invalidated and
re-resolved during the run) the persisted coordinates are the oldest ones,
not the most recent — first write wins, not last write. -/
theorem C3_first_write_wins (rows : List CacheRow) (q : String) :
    save_geocache rows = FileEvent.cacheWrite (dedupByQuery rows) ∧
    ((dedupByQuery rows).map CacheRow.query).Nodup ∧
    lookupQ (dedupByQuery rows) q = lookupQ rows q :=
  ⟨rfl, dedupByQuery_keys_nodup rows, lookupQ_dedupByQuery rows q⟩

/-- A validated hit for the C3 counterexample run. -/
def c3loc : Loc :=
  ⟨"", "", ⟨"br", "SAO CARLOS", "", "", "", "SAO PAULO", "SP", "1"⟩,
   "-22.01", "-47.89", ""⟩

/-- A Nominatim oracle that always returns the hit above. -/
def c3nom : Candidate → POut := fun _ => POut.hit c3loc

/-- C3 counterexample: a stale centroid-like entry for `"RUA A, 1"` is
invalidated by the pre-pass and the query is re-resolved to new
coordinates; the in-memory map ends with the new value, but the persisted
(deduplicated) cache keeps the stale first row — refuting last-write-wins
for the persisted cache. -/
theorem C3_counterexample :
    (geocode_addresses c3nom noHitArc ["RUA A, 1"] [⟨"RUA A, 1", "0.0", "0.0"⟩]
      none (some (0, 0)) "SAO CARLOS" "SP" none).geocache =
      [⟨"RUA A, 1", "0.0", "0.0"⟩, ⟨"RUA A, 1", "-22.01", "-47.89"⟩] ∧
    lookupQ (dictLast
      (geocode_addresses c3nom noHitArc ["RUA A, 1"] [⟨"RUA A, 1", "0.0", "0.0"⟩]
        none (some (0, 0)) "SAO CARLOS" "SP" none).geocache) "RUA A, 1" =
      some ("-22.01", "-47.89") ∧
    dedupByQuery
      (geocode_addresses c3nom noHitArc ["RUA A, 1"] [⟨"RUA A, 1", "0.0", "0.0"⟩]
        none (some (0, 0)) "SAO CARLOS" "SP" none).geocache =
      [⟨"RUA A, 1", "0.0", "0.0"⟩] := by
  refine ⟨?_, ?_, ?_⟩ <;> decide
